import Mathlib

/-!
# A verification development for `src/drop.js`

`drop.js` is one React component, `CategorizedNumberCheckboxGenerator`: a static
catalog of 31 number options in three categories, a selection object mapping
option ids to booleans, a pure text generator and a clipboard bridge.

The embedding is shallow:

* the catalog (`categories`, `allOptions`, `numberToWord`) is translated as data;
* the selection object is a JavaScript object whose own properties hold booleans;
  it is modelled by its own-property map `String → Option Bool`
  (`none` = the key is not an own property, i.e. reads give `undefined`);
* every state setter becomes a function from the previous state to the next;
* the clipboard bridge becomes a function from the selection and the behaviour of
  the platform (clipboard promise, text area ref, `execCommand`) to the list of
  effects it performs; the button label and the pending `setTimeout` callbacks
  form a small machine driven by those effects and by a virtual clock counted
  in milliseconds.
-/

namespace Drop

/-! ## Option catalog -/

/-- The array literal `words` inside `numberToWord` (drop.js, lines 114-122). -/
def words : List String :=
  [ "one", "two", "three", "four", "five",
    "six", "seven", "eight", "nine", "ten",
    "eleven", "twelve", "thirteen", "fourteen", "fifteen",
    "sixteen", "seventeen", "eighteen", "nineteen", "twenty",
    "twenty-one", "twenty-two", "twenty-three", "twenty-four", "twenty-five",
    "twenty-six", "twenty-seven", "twenty-eight", "twenty-nine", "thirty",
    "thirty-one" ]

/-- The function `numberToWord(num)` is `words[num - 1]`: an array read, which is
`undefined` (here `none`) when `num - 1` is not an index of the array. The argument
is an integer-valued number. -/
def numberToWord (num : Int) : Option String :=
  let i := num - 1
  if 0 ≤ i then words[i.toNat]? else none

/-- One catalog entry, the object literal with fields `id`, `label`, `text`. The field
`text` holds whatever `numberToWord` returned, a string or `undefined`. -/
structure NumOption where
  id : String
  label : String
  text : Option String
  deriving DecidableEq, Repr

/-- One category, the object literal with fields `id`, `name`, `options`. -/
structure Category where
  id : String
  name : String
  options : List NumOption
  deriving DecidableEq, Repr

/-- The callback given to `Array.from` in each category: from the number `num` it
builds the record with id `num-` followed by `num`, the label `num.toString()` and
the text `numberToWord(num)`. -/
def mkOption (num : Nat) : NumOption :=
  { id := "num-" ++ toString num
    label := toString num
    text := numberToWord (num : Int) }

/-- The constant `categories` (drop.js, lines 5-42). `Array.from` with a length of `n`
and a callback `(_, i) => f i` is the list `f 0, ..., f (n - 1)`. -/
def categories : List Category :=
  [ { id := "category1"
      name := "Numbers 1-10"
      options := (List.range 10).map (fun i => let num := i + 1; mkOption num) },
    { id := "category2"
      name := "Numbers 11-20"
      options := (List.range 10).map (fun i => let num := i + 11; mkOption num) },
    { id := "category3"
      name := "Numbers 21-31"
      options := (List.range 11).map (fun i => let num := i + 21; mkOption num) } ]

/-- The constant `allOptions`, the `flatMap` of the categories to their options. -/
def allOptions : List NumOption :=
  categories.flatMap (fun category => category.options)

/-! ## Selection state -/

/-- The selection object, by its own properties: `some b` when the key is an own
property holding the boolean `b`, `none` when the object has no such own property. -/
abbrev SelectionState := String → Option Bool

/-- The object literal with no properties, the initial value given to `useState` and the
value set by "Deselect All Numbers". -/
def emptyObject : SelectionState := fun _ => none

/-- Property names every plain object inherits from `Object.prototype`; reading one
of them on an object without an own property of that name gives a function (for
`__proto__` the prototype object), which is truthy. -/
def objectPrototypeKeys : List String :=
  [ "constructor", "hasOwnProperty", "isPrototypeOf", "propertyIsEnumerable",
    "toLocaleString", "toString", "valueOf", "__proto__",
    "__defineGetter__", "__defineSetter__", "__lookupGetter__", "__lookupSetter__" ]

/-- Truthiness of the read `obj[key]`, as in `!!obj[key]`: the own boolean when there
is one, else truthy exactly for an inherited property (`undefined` is falsy). -/
def truthyAt (obj : SelectionState) (key : String) : Bool :=
  match obj key with
  | some b => b
  | none => objectPrototypeKeys.contains key

/-- A copy of `obj` in which `key` is an own property holding `value` and every other
own property is as it was: the computed property `[key]: value` after a spread of
`obj` in an object literal, and the assignment `copy[key] = value` for the keys the
source assigns, the catalog ids. -/
def setKey (obj : SelectionState) (key : String) (value : Bool) : SelectionState :=
  fun k => if k = key then some value else obj k

/-- The state updater of `handleCheckboxChange(id)` (drop.js, lines 55-60): a
spread of `prev` followed by the computed property `[id]: !prev[id]`. -/
def handleCheckboxChange (id : String) (prev : SelectionState) : SelectionState :=
  setKey prev id (!(truthyAt prev id))

/-- The function `toggleCategory(categoryId, select)` (drop.js, lines 63-73), as the
map from the selection of the current render, which it closes over, to the one it
sets. An unknown category returns before `setSelectedOptions`, so the state stays as
it is. -/
def toggleCategory (categoryId : String) (select : Bool)
    (selectedOptions : SelectionState) : SelectionState :=
  match categories.find? (fun cat => cat.id == categoryId) with
  | none => selectedOptions
  | some category =>
      category.options.foldl (fun newSelected opt => setKey newSelected opt.id select)
        selectedOptions

/-- The click handler of "Select All Numbers" (drop.js, lines 177-181): a fresh object
gets every catalog id set to `true`; the previous state is not read. -/
def selectAllNumbers (_prev : SelectionState) : SelectionState :=
  allOptions.foldl (fun allSelected opt => setKey allSelected opt.id true) emptyObject

/-- The click handler of "Deselect All Numbers" (drop.js, line 187). -/
def deselectAllNumbers (_prev : SelectionState) : SelectionState :=
  emptyObject

/-! ## Text generator -/

/-- The loop of `Array.prototype.join`: before every element but the first the
separator is appended, then the element, where `undefined` counts as the empty
string. `k` is the index of the next element and `r` the string built so far. -/
def joinLoop (sep : String) : Nat → List (Option String) → String → String
  | _, [], r => r
  | k, e :: es, r =>
      let r1 := if k > 0 then r ++ sep else r
      joinLoop sep (k + 1) es (r1 ++ e.getD "")

/-- The call `array.join(sep)`. -/
def join (array : List (Option String)) (sep : String) : String :=
  joinLoop sep 0 array ""

/-- The function `generateText()` (drop.js, lines 76-86), with the selection it closes
over as its argument. -/
def generateText (selectedOptions : SelectionState) : String :=
  let selectedTexts :=
    (allOptions.filter (fun opt => truthyAt selectedOptions opt.id)).map (fun opt => opt.text)
  if selectedTexts.length = 0 then ""
  else join selectedTexts ", "

/-- The `disabled` attribute of the copy button, `!generatedText`: a string is
falsy exactly when it is empty. -/
def copyButtonDisabled (selectedOptions : SelectionState) : Bool :=
  generateText selectedOptions == ""

/-- The line under the text area (drop.js, line 215). All generated text is ASCII, so
the number of UTF-16 units JavaScript reports is the number of characters. -/
def lengthLabel (selectedOptions : SelectionState) : String :=
  let generatedText := generateText selectedOptions
  if generatedText ≠ "" then toString generatedText.length ++ " characters"
  else "No text generated"

/-! ## User actions on the selection -/

/-- The events of the rendered component that change the selection: the `onChange` of
a checkbox, the two buttons of a category, and the two global buttons. -/
inductive Action where
  | checkbox (optionId : String)
  | categoryButton (categoryId : String) (select : Bool)
  | selectAll
  | deselectAll
  deriving DecidableEq, Repr

/-- The ids of the checkboxes the component renders (drop.js, lines 136 and 156-162):
one for each option of each category. -/
def renderedCheckboxIds : List String :=
  categories.flatMap (fun category => category.options.map (fun opt => opt.id))

/-- Whether the rendered component can raise the action: a checkbox exists for the
options of the categories only, a category button for the categories only. -/
def Action.rendered : Action → Bool
  | .checkbox optionId => renderedCheckboxIds.contains optionId
  | .categoryButton categoryId _ => (categories.map (fun cat => cat.id)).contains categoryId
  | .selectAll => true
  | .deselectAll => true

/-- The handler bound to each action. -/
def Action.apply : Action → SelectionState → SelectionState
  | .checkbox optionId => handleCheckboxChange optionId
  | .categoryButton categoryId select => toggleCategory categoryId select
  | .selectAll => selectAllNumbers
  | .deselectAll => deselectAllNumbers

/-- The selection after a sequence of actions, each handled on the state the previous
one left. -/
def runActions (actions : List Action) (start : SelectionState) : SelectionState :=
  actions.foldl (fun s a => a.apply s) start

/-- Every own key of the selection is the id of a catalog option. -/
def KeysInCatalog (s : SelectionState) : Prop :=
  ∀ k, (s k).isSome = true → k ∈ allOptions.map (fun o => o.id)

/-! ## Clipboard bridge -/

/-- What the platform does with `navigator.clipboard.writeText(text)`: there is no
`navigator.clipboard` (the member access throws), or the promise it returns is
fulfilled, or it is rejected. -/
inductive ClipboardWrite where
  | unavailable
  | fulfils
  | rejects
  deriving DecidableEq, Repr

/-- What `document.execCommand('copy')` does: it returns whether the copy was done,
or it throws. -/
inductive ExecCommand where
  | returns (copied : Bool)
  | throws
  deriving DecidableEq, Repr

/-- The platform as the clipboard bridge meets it. `textAreaMounted` says whether
`textAreaRef.current` is an element (it is `null` otherwise). -/
structure Platform where
  clipboard : ClipboardWrite
  textAreaMounted : Bool
  execCommand : ExecCommand
  deriving DecidableEq, Repr

/-- The effects of the clipboard bridge. `setTimeoutRevert ms` is the one `setTimeout`
call of the source, whose callback sets the button label to "Copy Text". -/
inductive Effect where
  | writeText (text : String)
  | consoleError
  | selectTextArea
  | execCommandCopy
  | setCopyButtonText (label : String)
  | setTimeoutRevert (ms : Nat)
  deriving DecidableEq, Repr

/-- How a copy ends: without an exception, with one thrown out of the click handler,
or with one thrown inside the `catch` callback, which rejects the promise chain with
nothing handling it. -/
inductive Completion where
  | normal
  | throwsAtClick
  | unhandledRejection
  deriving DecidableEq, Repr

/-- One run of `copyToClipboard`: the effects during the click, the effects of the
`then` or `catch` callback when the promise settles, and how it ends. -/
structure CopyRun where
  atClick : List Effect
  atSettle : List Effect
  completion : Completion
  deriving DecidableEq, Repr

/-- The `then` callback (drop.js, lines 93-96). -/
def onFulfilled : List Effect :=
  [.setCopyButtonText "Copied!", .setTimeoutRevert 2000]

/-- The `catch` callback (drop.js, lines 97-106). The value `execCommand` returns is
not read. -/
def onRejected (p : Platform) : List Effect × Completion :=
  if p.textAreaMounted then
    match p.execCommand with
    | .returns _ =>
        ([.consoleError, .selectTextArea, .execCommandCopy,
          .setCopyButtonText "Copied!", .setTimeoutRevert 2000], .normal)
    | .throws =>
        ([.consoleError, .selectTextArea, .execCommandCopy], .unhandledRejection)
  else ([.consoleError], .normal)

/-- The function `copyToClipboard()` (drop.js, lines 89-108) on the current selection
and the platform. -/
def copyToClipboard (selectedOptions : SelectionState) (p : Platform) : CopyRun :=
  let text := generateText selectedOptions
  if text ≠ "" then
    match p.clipboard with
    | .unavailable => { atClick := [], atSettle := [], completion := .throwsAtClick }
    | .fulfils => { atClick := [.writeText text], atSettle := onFulfilled, completion := .normal }
    | .rejects =>
        { atClick := [.writeText text]
          atSettle := (onRejected p).1
          completion := (onRejected p).2 }
  else { atClick := [], atSettle := [], completion := .normal }

/-- The copy button on a virtual clock: the time in milliseconds, the label state
`copyButtonText`, and the due times of the pending `setTimeout` callbacks. Every
callback the source schedules sets the label to "Copy Text"; none is ever cleared. -/
structure Ui where
  now : Nat
  copyButtonText : String
  timers : List Nat
  deriving DecidableEq, Repr

/-- The button as `useState('Copy Text')` leaves it at mount, at time 0. -/
def Ui.idle : Ui :=
  { now := 0, copyButtonText := "Copy Text", timers := [] }

/-- One effect on the button: `setCopyButtonText` sets the label, `setTimeout` adds a
pending callback due its delay from now; the other effects do not touch the button. -/
def Ui.perform (ui : Ui) : Effect → Ui
  | .setCopyButtonText label => { ui with copyButtonText := label }
  | .setTimeoutRevert ms => { ui with timers := ui.timers ++ [ui.now + ms] }
  | _ => ui

/-- A list of effects, in order. -/
def Ui.performAll (ui : Ui) (effects : List Effect) : Ui :=
  effects.foldl Ui.perform ui

/-- The clock moves on by `d` milliseconds with nothing else happening: every pending
callback that is due by then has run, each setting the label to "Copy Text". -/
def Ui.advance (ui : Ui) (d : Nat) : Ui :=
  let now := ui.now + d
  { now := now
    copyButtonText := if ui.timers.any (fun due => due ≤ now) then "Copy Text" else ui.copyButtonText
    timers := ui.timers.filter (fun due => now < due) }

/-- The button once the promise of a copy has settled, at the current time: the effects
of the callback that ran are performed in order. -/
def Ui.settle (ui : Ui) (selectedOptions : SelectionState) (p : Platform) : Ui :=
  ui.performAll (copyToClipboard selectedOptions p).atSettle

/-! ## Reference definitions, following the specification's words -/

/-- Reference word for a unit 1..9. -/
def unitWord : Nat → Option String
  | 1 => some "one" | 2 => some "two" | 3 => some "three"
  | 4 => some "four" | 5 => some "five" | 6 => some "six"
  | 7 => some "seven" | 8 => some "eight" | 9 => some "nine"
  | _ => none

/-- Reference word for the numbers 10..19, which English does not compose. -/
def teenWord : Nat → Option String
  | 10 => some "ten" | 11 => some "eleven" | 12 => some "twelve"
  | 13 => some "thirteen" | 14 => some "fourteen" | 15 => some "fifteen"
  | 16 => some "sixteen" | 17 => some "seventeen" | 18 => some "eighteen"
  | 19 => some "nineteen"
  | _ => none

/-- Reference word for the tens 20 and 30, by their tens digit. -/
def tensWord : Nat → Option String
  | 2 => some "twenty" | 3 => some "thirty"
  | _ => none

/-- Reference partial map of the specification: the lowercase English word of an
integer in 1..31, a compound of tens and unit being written with a hyphen; no word
outside 1..31. -/
def referenceWord (n : Int) : Option String :=
  if 1 ≤ n ∧ n ≤ 31 then
    let m := n.toNat
    if m < 10 then unitWord m
    else if m < 20 then teenWord m
    else if m % 10 = 0 then tensWord (m / 10)
    else
      match tensWord (m / 10), unitWord (m % 10) with
      | some t, some u => some (t ++ "-" ++ u)
      | _, _ => none
  else none

/-- Reference joining of words: each word followed by a comma and a space and the
rest, the last word followed by nothing, no word giving the empty string. -/
def joinWords : List String → String
  | [] => ""
  | [w] => w
  | w :: v :: rest => w ++ ", " ++ joinWords (v :: rest)

/-- Reference option for the number `n`, as the specification describes it: the id
`num-n`, the decimal label and the reference word. -/
def referenceOption (n : Nat) : NumOption :=
  { id := "num-" ++ Nat.repr n
    label := Nat.repr n
    text := referenceWord (n : Int) }

/-- A selection represents the set `S` of option numbers: for each of the 31 options,
the key of the option holds `true` exactly when its number is in `S` (the key of an
option outside `S` is absent or holds `false`). -/
def Represents (s : SelectionState) (S : Finset ℕ) : Prop :=
  ∀ n, 1 ≤ n → n ≤ 31 → (s ("num-" ++ toString n) = some true ↔ n ∈ S)

/-- Reference text for a set of option numbers: the words of its members, in
ascending order of the numbers (the catalog order), joined by `joinWords`. -/
def expectedText (S : Finset ℕ) : String :=
  joinWords ((S.sort (fun a b => a ≤ b)).filterMap (fun n : ℕ => referenceWord (n : Int)))

/-- A selection represents the set `T` of catalog options: the key of each catalog
option holds `true` exactly when the option is in `T`. -/
def RepresentsOptions (s : SelectionState) (T : Finset NumOption) : Prop :=
  ∀ opt ∈ allOptions, (s opt.id = some true ↔ opt ∈ T)

/-- Reference text for a set of catalog options: the texts of the catalog options that
are in the set, in the order of the catalog (the categories in order, each in the
order of its options), joined by `joinWords`. -/
def expectedTextOfOptions (T : Finset NumOption) : String :=
  joinWords
    (((categories.flatMap (fun c => c.options)).filter (fun opt => decide (opt ∈ T))).filterMap
      (fun opt => opt.text))

/-- The selection in which `num-5` and `num-21` are checked and nothing else is a
key. -/
def selection_5_21 : SelectionState :=
  setKey (setKey emptyObject "num-5" true) "num-21" true

/-! ## The catalog -/

theorem numberToWord_below (n : Int) (h : n < 1) : numberToWord n = none := by
  have h0 : ¬ (0 ≤ n - 1) := by omega
  simp [numberToWord, h0]

theorem numberToWord_above (n : Int) (h : 31 < n) : numberToWord n = none := by
  have h0 : 0 ≤ n - 1 := by omega
  have h1 : words.length ≤ (n - 1).toNat := by
    have : words.length = 31 := by decide
    omega
  unfold numberToWord
  simp only [h0, if_true]
  exact List.getElem?_eq_none h1

theorem numberToWord_inside (n : Int) (h1 : 1 ≤ n) (h2 : n ≤ 31) :
    numberToWord n = referenceWord n := by
  interval_cases n <;> decide

/-- C5. `numberToWord` is the reference partial map: on every integer it agrees with
`referenceWord`, which gives the lowercase English word, hyphenated from 21 on, for
1..31 and no word (`undefined`) outside; in particular 21 gives "twenty-one" and 31
gives "thirty-one". -/
theorem numberToWord_eq_referenceWord :
    (∀ n : Int, numberToWord n = referenceWord n) ∧
    numberToWord 21 = some "twenty-one" ∧ numberToWord 31 = some "thirty-one" ∧
    (List.range' 1 31).map (fun n : ℕ => numberToWord (n : Int)) = words.map some := by
  refine ⟨?_, by decide, by decide, by decide⟩
  intro n
  rcases lt_or_le n 1 with h | h
  · have hr : ¬ (1 ≤ n ∧ n ≤ 31) := by omega
    rw [numberToWord_below n h]
    simp [referenceWord, hr]
  · rcases lt_or_le 31 n with h2 | h2
    · have hr : ¬ (1 ≤ n ∧ n ≤ 31) := by omega
      rw [numberToWord_above n h2]
      simp [referenceWord, hr]
    · exact numberToWord_inside n h h2

set_option maxRecDepth 100000 in
/-- C6. The catalog has exactly three categories, whose options are the reference
options of 1..10, 11..20 and 21..31 (10, 10 and 11 of them); `allOptions` is the
reference options of 1, 2, ..., 31 in ascending order, each number once; the ids are
`num-1`, ..., `num-31` and pairwise distinct, the labels the decimal numerals, and the
text of the option of N is `numberToWord(N)`. -/
theorem catalog_structure :
    categories.map (fun c => c.id) = ["category1", "category2", "category3"] ∧
    categories.map (fun c => c.options) =
      [ (List.range' 1 10).map referenceOption,
        (List.range' 11 10).map referenceOption,
        (List.range' 21 11).map referenceOption ] ∧
    categories.map (fun c => c.options.length) = [10, 10, 11] ∧
    allOptions = (List.range' 1 31).map referenceOption ∧
    allOptions.length = 31 ∧
    allOptions.map (fun o => o.id) = ["num-1", "num-2", "num-3", "num-4", "num-5", "num-6", "num-7", "num-8", "num-9", "num-10", "num-11", "num-12", "num-13", "num-14", "num-15", "num-16", "num-17", "num-18", "num-19", "num-20", "num-21", "num-22", "num-23", "num-24", "num-25", "num-26", "num-27", "num-28", "num-29", "num-30", "num-31"] ∧
    (allOptions.map (fun o => o.id)).Nodup ∧
    allOptions.map (fun o => o.label) = ["1", "2", "3", "4", "5", "6", "7", "8", "9", "10", "11", "12", "13", "14", "15", "16", "17", "18", "19", "20", "21", "22", "23", "24", "25", "26", "27", "28", "29", "30", "31"] ∧
    allOptions.map (fun o => o.text) =
      (List.range' 1 31).map (fun n : ℕ => numberToWord (n : Int)) := by
  refine ⟨by decide, by decide, by decide, by decide, by decide, by decide, by decide,
    by decide, by decide⟩

set_option maxRecDepth 100000 in
/-- C2. Whatever the selection was, after "Select All Numbers" the generated text is
the 31 words in catalog order, separated by a comma and a space. -/
theorem generateText_selectAllNumbers (s : SelectionState) :
    generateText (selectAllNumbers s) =
      "one, two, three, four, five, six, seven, eight, nine, ten, eleven, twelve, thirteen, fourteen, fifteen, sixteen, seventeen, eighteen, nineteen, twenty, twenty-one, twenty-two, twenty-three, twenty-four, twenty-five, twenty-six, twenty-seven, twenty-eight, twenty-nine, thirty, thirty-one" := by
  show generateText (selectAllNumbers emptyObject) = _
  decide

/-- C8. Whatever the selection was, after "Deselect All Numbers" the selection has
no key, the generated text is the empty string, the copy button is disabled, a call
of `copyToClipboard` performs no effect at all on any platform (no clipboard write,
no label change, no exception) and leaves the button as it is, and the length line
reads "No text generated". -/
theorem deselectAllNumbers_effects (s : SelectionState) (p : Platform) (ui : Ui) :
    (∀ k, deselectAllNumbers s k = none) ∧
    generateText (deselectAllNumbers s) = "" ∧
    copyButtonDisabled (deselectAllNumbers s) = true ∧
    copyToClipboard (deselectAllNumbers s) p =
      { atClick := [], atSettle := [], completion := .normal } ∧
    ui.settle (deselectAllNumbers s) p = ui ∧
    lengthLabel (deselectAllNumbers s) = "No text generated" := by
  have hg : generateText (deselectAllNumbers s) = "" := by
    show generateText emptyObject = ""
    decide
  refine ⟨fun _ => rfl, hg, ?_, ?_, ?_, ?_⟩
  · simp [copyButtonDisabled, hg]
  · simp [copyToClipboard, hg]
  · simp [Ui.settle, copyToClipboard, hg, Ui.performAll]
  · simp [lengthLabel, hg]

/-! ## Selection state operations -/

theorem setKey_apply (obj : SelectionState) (key : String) (v : Bool) (k : String) :
    setKey obj key v k = if k = key then some v else obj k := rfl

/-- Setting every id of a list of options to one value: the keys of the list hold that
value, every other key is untouched. -/
theorem foldl_setKey_apply (opts : List NumOption) (v : Bool) (s : SelectionState)
    (k : String) :
    opts.foldl (fun acc opt => setKey acc opt.id v) s k =
      if k ∈ opts.map (fun o => o.id) then some v else s k := by
  induction opts generalizing s with
  | nil => simp
  | cons o rest ih =>
      rw [List.foldl_cons, ih]
      by_cases hk : k ∈ rest.map (fun o => o.id)
      · simp [hk]
      · by_cases hko : k = o.id
        · simp [hko, setKey_apply]
        · simp [hk, hko, setKey_apply]

theorem find_category (cat : Category) (h : cat ∈ categories) :
    categories.find? (fun c => c.id == cat.id) = some cat := by
  simp only [categories, List.mem_cons, List.mem_singleton, List.not_mem_nil, or_false] at h
  rcases h with h | h | h <;> subst h <;> decide

theorem toggleCategory_apply (cat : Category) (h : cat ∈ categories) (select : Bool)
    (s : SelectionState) (k : String) :
    toggleCategory cat.id select s k =
      if k ∈ cat.options.map (fun o => o.id) then some select else s k := by
  unfold toggleCategory
  rw [find_category cat h]
  exact foldl_setKey_apply cat.options select s k

theorem toggle_twice_apply (id : String) (s : SelectionState) (k : String) :
    handleCheckboxChange id (handleCheckboxChange id s) k =
      if k = id then some (truthyAt s id) else s k := by
  by_cases hk : k = id
  · simp [handleCheckboxChange, setKey_apply, hk, truthyAt]
  · simp [handleCheckboxChange, setKey_apply, hk]

/-- C3, as the code has it. Toggling the same id twice leaves every other key as it
was and leaves every key, the toggled one included, reading the same truth value
(`!!state[key]`); the toggled key is then an own key holding that truth value. The
state itself is the original one when the id was a key of it before. -/
theorem handleCheckboxChange_twice (id : String) (s : SelectionState) :
    (∀ k, truthyAt (handleCheckboxChange id (handleCheckboxChange id s)) k = truthyAt s k) ∧
    (∀ k, k ≠ id → handleCheckboxChange id (handleCheckboxChange id s) k = s k) ∧
    handleCheckboxChange id (handleCheckboxChange id s) id = some (truthyAt s id) ∧
    ((s id).isSome = true → handleCheckboxChange id (handleCheckboxChange id s) = s) := by
  refine ⟨?_, ?_, ?_, ?_⟩
  · intro k
    by_cases hk : k = id
    · subst hk
      simp [truthyAt, toggle_twice_apply]
    · simp [truthyAt, toggle_twice_apply, hk]
  · intro k hk
    simp [toggle_twice_apply, hk]
  · simp [toggle_twice_apply]
  · intro hs
    funext k
    rw [toggle_twice_apply]
    by_cases hk : k = id
    · subst hk
      cases hv : s k with
      | none => simp [hv] at hs
      | some b => simp [truthyAt, hv]
    · simp [hk]

/-- C3, witness: on the state with `num-5` checked, toggling `num-5` twice gives the
state back. -/
theorem handleCheckboxChange_twice_witness :
    (setKey emptyObject "num-5" true "num-5").isSome = true ∧
    handleCheckboxChange "num-5" (handleCheckboxChange "num-5" (setKey emptyObject "num-5" true))
      = setKey emptyObject "num-5" true :=
  ⟨by decide, (handleCheckboxChange_twice "num-5" (setKey emptyObject "num-5" true)).2.2.2
    (by decide)⟩

/-- C3 as stated fails: on the empty state, where `num-1` is absent, toggling `num-1`
twice leaves the key present holding `false`, so the state is not the empty one. -/
theorem absent_key_toggled_twice :
    emptyObject "num-1" = none ∧
    handleCheckboxChange "num-1" (handleCheckboxChange "num-1" emptyObject) "num-1"
      = some false ∧
    handleCheckboxChange "num-1" (handleCheckboxChange "num-1" emptyObject) ≠ emptyObject := by
  refine ⟨rfl, by decide, ?_⟩
  intro h
  have h1 := congrFun h "num-1"
  revert h1
  decide

/-- C4. For a category of the catalog, selecting all of its options and then
deselecting all of them leaves every option of the category an own key holding
`false`, and every key that is not an id of the category, so every option of the other
categories, with the value it had before (absent keys stay absent). -/
theorem toggleCategory_true_false (s : SelectionState) (cat : Category)
    (h : cat ∈ categories) :
    (∀ opt ∈ cat.options,
      toggleCategory cat.id false (toggleCategory cat.id true s) opt.id = some false) ∧
    (∀ k, k ∉ cat.options.map (fun o => o.id) →
      toggleCategory cat.id false (toggleCategory cat.id true s) k = s k) ∧
    (∀ opt ∈ allOptions, opt ∉ cat.options →
      toggleCategory cat.id false (toggleCategory cat.id true s) opt.id = s opt.id) := by
  have hout : ∀ k, k ∉ cat.options.map (fun o => o.id) →
      toggleCategory cat.id false (toggleCategory cat.id true s) k = s k := by
    intro k hk
    rw [toggleCategory_apply cat h, toggleCategory_apply cat h]
    simp only [hk, if_false]
  refine ⟨?_, hout, ?_⟩
  · intro opt ho
    rw [toggleCategory_apply cat h]
    have : opt.id ∈ cat.options.map (fun o => o.id) := List.mem_map_of_mem _ ho
    simp only [this, if_true]
  · intro opt hall hnot
    apply hout
    intro hmem
    obtain ⟨o2, ho2, hid⟩ := List.mem_map.1 hmem
    have hinj : ∀ a ∈ allOptions, ∀ b ∈ allOptions, a.id = b.id → a = b := by decide
    have ho2all : o2 ∈ allOptions := by
      unfold allOptions
      exact List.mem_flatMap.2 ⟨cat, h, ho2⟩
    exact hnot (hinj o2 ho2all opt hall hid ▸ ho2)

/-- C4, witness: the first category on the state where only `num-12` is checked. -/
theorem toggleCategory_true_false_witness :
    Category.mk "category1" "Numbers 1-10" ((List.range' 1 10).map mkOption) ∈ categories ∧
    toggleCategory "category1" false
      (toggleCategory "category1" true (setKey emptyObject "num-12" true)) "num-3"
        = some false ∧
    toggleCategory "category1" false
      (toggleCategory "category1" true (setKey emptyObject "num-12" true)) "num-12"
        = setKey emptyObject "num-12" true "num-12" :=
  ⟨by decide,
   (toggleCategory_true_false (setKey emptyObject "num-12" true)
      (Category.mk "category1" "Numbers 1-10" ((List.range' 1 10).map mkOption))
      (by decide)).1 (mkOption 3) (by decide),
   (toggleCategory_true_false (setKey emptyObject "num-12" true)
      (Category.mk "category1" "Numbers 1-10" ((List.range' 1 10).map mkOption))
      (by decide)).2.1 "num-12" (by decide)⟩

/-! ## The keys of the selection -/

theorem category_ids_in_catalog (cat : Category) (h : cat ∈ categories) (k : String)
    (hk : k ∈ cat.options.map (fun o => o.id)) : k ∈ allOptions.map (fun o => o.id) := by
  obtain ⟨o, ho, rfl⟩ := List.mem_map.1 hk
  refine List.mem_map_of_mem _ ?_
  unfold allOptions
  exact List.mem_flatMap.2 ⟨cat, h, ho⟩

theorem keysInCatalog_apply (a : Action) (ha : a.rendered = true) (s : SelectionState)
    (hs : KeysInCatalog s) : KeysInCatalog (a.apply s) := by
  intro k hk
  cases a with
  | checkbox optionId =>
      have hr : renderedCheckboxIds = allOptions.map (fun o => o.id) := by decide
      simp [Action.rendered, hr] at ha
      simp only [Action.apply, handleCheckboxChange, setKey_apply] at hk
      by_cases hko : k = optionId
      · rw [hko]; exact List.mem_map.2 ha
      · rw [if_neg hko] at hk; exact hs k hk
  | categoryButton categoryId select =>
      simp only [Action.apply, toggleCategory] at hk
      cases hf : categories.find? (fun cat => cat.id == categoryId) with
      | none => rw [hf] at hk; exact hs k hk
      | some cat =>
          rw [hf] at hk
          simp only [foldl_setKey_apply] at hk
          by_cases hmem : k ∈ cat.options.map (fun o => o.id)
          · exact category_ids_in_catalog cat (List.mem_of_find?_eq_some hf) k hmem
          · rw [if_neg hmem] at hk; exact hs k hk
  | selectAll =>
      simp only [Action.apply, selectAllNumbers, foldl_setKey_apply] at hk
      by_cases hmem : k ∈ allOptions.map (fun o => o.id)
      · exact hmem
      · rw [if_neg hmem] at hk; simp [emptyObject] at hk
  | deselectAll =>
      simp [Action.apply, deselectAllNumbers, emptyObject] at hk

theorem keysInCatalog_runActions (actions : List Action) (s : SelectionState)
    (h : ∀ a ∈ actions, a.rendered = true) (hs : KeysInCatalog s) :
    KeysInCatalog (runActions actions s) := by
  induction actions generalizing s with
  | nil => exact hs
  | cons a rest ih =>
      have ha : a.rendered = true := h a (List.mem_cons_self _ _)
      have hrest : ∀ b ∈ rest, b.rendered = true := fun b hb => h b (List.mem_cons_of_mem _ hb)
      exact ih (a.apply s) hrest (keysInCatalog_apply a ha s hs)

/-- C7. In every selection reached from the initial empty object by a finite sequence
of actions the rendered component can raise (a checkbox of a catalog option, a
category's select or deselect button, "Select All Numbers", "Deselect All Numbers"),
every own key is the id of a catalog option. -/
theorem reachable_keys_in_catalog (actions : List Action)
    (h : ∀ a ∈ actions, a.rendered = true) (k : String)
    (hk : (runActions actions emptyObject k).isSome = true) :
    k ∈ allOptions.map (fun o => o.id) :=
  keysInCatalog_runActions actions emptyObject h (fun _ hk0 => by simp [emptyObject] at hk0) k hk

set_option maxRecDepth 100000 in
/-- C7, witness: after checking `num-7`, selecting the second category, unchecking
`num-12` and deselecting the third category, the key `num-12` is present (holding
`false`) and is a catalog id. -/
theorem reachable_keys_in_catalog_witness :
    (∀ a ∈ [Action.checkbox "num-7", Action.categoryButton "category2" true,
        Action.checkbox "num-12", Action.categoryButton "category3" false],
      a.rendered = true) ∧
    (runActions [Action.checkbox "num-7", Action.categoryButton "category2" true,
        Action.checkbox "num-12", Action.categoryButton "category3" false]
      emptyObject "num-12").isSome = true ∧
    "num-12" ∈ allOptions.map (fun o => o.id) :=
  ⟨by decide, by decide,
   reachable_keys_in_catalog
     [Action.checkbox "num-7", Action.categoryButton "category2" true,
        Action.checkbox "num-12", Action.categoryButton "category3" false]
     (by decide) "num-12" (by decide)⟩

/-! ## The text generator -/

theorem joinLoop_succ (ws : List String) (w : String) (k : Nat) (r : String) :
    joinLoop ", " (k + 1) (ws.map some) (r ++ w) = r ++ joinWords (w :: ws) := by
  induction ws generalizing w k r with
  | nil => simp [joinLoop, joinWords]
  | cons v rest ih =>
      have hstep : joinLoop ", " (k + 1) ((v :: rest).map some) (r ++ w)
          = joinLoop ", " (k + 1 + 1) (rest.map some) ((r ++ w ++ ", ") ++ v) := by
        simp [joinLoop]
      rw [hstep, ih v (k + 1) (r ++ w ++ ", ")]
      simp [joinWords, String.append_assoc]

theorem join_map_some (w : String) (ws : List String) :
    join ((w :: ws).map some) ", " = joinWords (w :: ws) := by
  have h := joinLoop_succ ws w 0 ""
  simp only [String.empty_append] at h
  simpa [join, joinLoop] using h

theorem generate_of_texts (ws : List String) :
    (if (ws.map some).length = 0 then "" else join (ws.map some) ", ") = joinWords ws := by
  cases ws with
  | nil => simp [joinWords]
  | cons w rest =>
      rw [if_neg (by simp)]
      exact join_map_some w rest

theorem allOptions_eq : allOptions = (List.range' 1 31).map mkOption := by decide

theorem catalog_id_not_inherited :
    ∀ n ∈ List.range' 1 31, objectPrototypeKeys.contains ("num-" ++ toString n) = false := by
  decide

theorem word_some (n : ℕ) (h1 : 1 ≤ n) (h2 : n ≤ 31) :
    ∃ w, numberToWord (n : Int) = some w ∧ referenceWord (n : Int) = some w := by
  interval_cases n <;> exact ⟨_, rfl, by decide⟩

theorem map_numberToWord (l : List ℕ) (h : ∀ n ∈ l, 1 ≤ n ∧ n ≤ 31) :
    l.map (fun n : ℕ => numberToWord (n : Int))
      = (l.filterMap (fun n : ℕ => referenceWord (n : Int))).map some := by
  induction l with
  | nil => rfl
  | cons a rest ih =>
      obtain ⟨w, hw1, hw2⟩ := word_some a (h a (List.mem_cons_self _ _)).1
        (h a (List.mem_cons_self _ _)).2
      have hrest : ∀ n ∈ rest, 1 ≤ n ∧ n ≤ 31 := fun n hn => h n (List.mem_cons_of_mem _ hn)
      simp only [List.map_cons, List.filterMap_cons, hw1, hw2, ih hrest]

theorem truthyAt_of_represents (s : SelectionState) (S : Finset ℕ) (h : Represents s S)
    (n : ℕ) (hn : n ∈ List.range' 1 31) :
    truthyAt s (mkOption n).id = decide (n ∈ S) := by
  have hb : 1 ≤ n ∧ n ≤ 31 := by
    have := List.mem_range'_1.1 hn
    omega
  have hrep := h n hb.1 hb.2
  have hid : (mkOption n).id = "num-" ++ toString n := rfl
  rw [hid]
  unfold truthyAt
  cases hv : s ("num-" ++ toString n) with
  | none =>
      rw [hv] at hrep
      have hS : n ∉ S := fun hmem => by simpa using hrep.2 hmem
      have hp := catalog_id_not_inherited n hn
      rw [hp]
      simp [hS]
  | some b =>
      rw [hv] at hrep
      cases b with
      | true => simp [hrep.1 rfl]
      | false =>
          have hS : n ∉ S := fun hmem => by simpa using hrep.2 hmem
          simp [hS]

theorem filter_range_eq_sort (S : Finset ℕ) (hS : S ⊆ Finset.Icc 1 31) :
    (List.range' 1 31).filter (fun n => decide (n ∈ S)) = S.sort (fun a b => a ≤ b) := by
  apply List.eq_of_perm_of_sorted (r := fun a b : ℕ => a ≤ b)
  · apply (List.perm_ext_iff_of_nodup ((List.nodup_range' 1 31).filter _)
      (Finset.sort_nodup _ S)).2
    intro a
    simp only [List.mem_filter, List.mem_range'_1, decide_eq_true_eq, Finset.mem_sort]
    constructor
    · exact fun h => h.2
    · intro h
      have := Finset.mem_Icc.1 (hS h)
      exact ⟨by omega, h⟩
  · exact ((List.pairwise_lt_range' 1 31).imp (fun h => Nat.le_of_lt h)).filter _
  · exact Finset.sort_sorted _ S

theorem generateText_of_represents (S : Finset ℕ) (s : SelectionState)
    (hS : S ⊆ Finset.Icc 1 31) (h : Represents s S) : generateText s = expectedText S := by
  have hfilter : (allOptions.filter (fun opt => truthyAt s opt.id)).map (fun opt => opt.text)
      = ((S.sort (fun a b => a ≤ b)).filterMap (fun n : ℕ => referenceWord (n : Int))).map some := by
    rw [allOptions_eq, List.filter_map, List.map_map]
    have hc : (List.range' 1 31).filter ((fun opt => truthyAt s opt.id) ∘ mkOption)
        = (List.range' 1 31).filter (fun n => decide (n ∈ S)) :=
      List.filter_congr (fun n hn => truthyAt_of_represents s S h n hn)
    rw [hc, filter_range_eq_sort S hS]
    have hm : ((fun opt : NumOption => opt.text) ∘ mkOption)
        = fun n : ℕ => numberToWord (n : Int) := rfl
    rw [hm]
    apply map_numberToWord
    intro n hn
    have := Finset.mem_Icc.1 (hS ((Finset.mem_sort _).1 hn))
    exact this
  unfold generateText expectedText
  simp only [hfilter]
  exact generate_of_texts _

theorem map_text (l : List NumOption) (h : ∀ o ∈ l, o ∈ allOptions) :
    l.map (fun opt => opt.text) = (l.filterMap (fun opt => opt.text)).map some := by
  have hsome : ∀ o ∈ allOptions, o.text.isSome = true := by decide
  induction l with
  | nil => rfl
  | cons a rest ih =>
      have ha := hsome a (h a (List.mem_cons_self _ _))
      obtain ⟨w, hw⟩ := Option.isSome_iff_exists.1 ha
      have hrest : ∀ o ∈ rest, o ∈ allOptions := fun o ho => h o (List.mem_cons_of_mem _ ho)
      simp only [List.map_cons, List.filterMap_cons, hw, ih hrest]

theorem truthyAt_of_representsOptions (s : SelectionState) (T : Finset NumOption)
    (h : RepresentsOptions s T) (opt : NumOption) (ho : opt ∈ allOptions) :
    truthyAt s opt.id = decide (opt ∈ T) := by
  have hproto : ∀ o ∈ allOptions, objectPrototypeKeys.contains o.id = false := by decide
  have hrep := h opt ho
  unfold truthyAt
  cases hv : s opt.id with
  | none =>
      rw [hv] at hrep
      have hT : opt ∉ T := fun hmem => by simpa using hrep.2 hmem
      have hp := hproto opt ho
      rw [hp]
      simp [hT]
  | some b =>
      rw [hv] at hrep
      cases b with
      | true => simp [hrep.1 rfl]
      | false =>
          have hT : opt ∉ T := fun hmem => by simpa using hrep.2 hmem
          simp [hT]

theorem generateText_of_representsOptions (T : Finset NumOption) (s : SelectionState)
    (h : RepresentsOptions s T) : generateText s = expectedTextOfOptions T := by
  have hc : allOptions.filter (fun opt => truthyAt s opt.id)
      = allOptions.filter (fun opt => decide (opt ∈ T)) :=
    List.filter_congr (fun opt ho => truthyAt_of_representsOptions s T h opt ho)
  have hm := map_text (allOptions.filter (fun opt => decide (opt ∈ T)))
    (fun o ho => (List.mem_filter.1 ho).1)
  unfold generateText expectedTextOfOptions
  simp only [hc, hm]
  exact generate_of_texts _

/-- C1. For every set of the catalog options, given by the options themselves (`T`) or
by their numbers among 1..31 (`S`), and every selection that represents it,
`generateText` returns the words of exactly its members, in catalog order (the three
categories in order, each in index order, which is ascending numbers), each but the
last followed by a comma and a space. Selecting only `num-5` and `num-21` gives
"five, twenty-one", of length 16. -/
theorem generateText_subset :
    (∀ (T : Finset NumOption) (s : SelectionState), RepresentsOptions s T →
      generateText s = expectedTextOfOptions T) ∧
    (∀ (S : Finset ℕ) (s : SelectionState), S ⊆ Finset.Icc 1 31 → Represents s S →
      generateText s = expectedText S) ∧
    generateText selection_5_21 = "five, twenty-one" ∧
    (generateText selection_5_21).length = 16 ∧
    lengthLabel selection_5_21 = "16 characters" :=
  ⟨generateText_of_representsOptions, generateText_of_represents, by decide, by decide,
    by decide⟩

set_option maxRecDepth 100000 in
/-- C1, witness: the set of 5 and 21 and the selection holding exactly `num-5` and
`num-21`. -/
theorem generateText_subset_witness :
    ({5, 21} : Finset ℕ) ⊆ Finset.Icc 1 31 ∧ Represents selection_5_21 {5, 21} ∧
    generateText selection_5_21 = expectedText {5, 21} ∧
    RepresentsOptions selection_5_21 {mkOption 5, mkOption 21} ∧
    generateText selection_5_21 = expectedTextOfOptions {mkOption 5, mkOption 21} ∧
    expectedTextOfOptions {mkOption 5, mkOption 21} = "five, twenty-one" :=
  ⟨by decide,
   fun n h1 h2 => by interval_cases n <;> decide,
   generateText_subset.2.1 {5, 21} selection_5_21 (by decide)
     (fun n h1 h2 => by interval_cases n <;> decide),
   by unfold RepresentsOptions; decide,
   generateText_subset.1 {mkOption 5, mkOption 21} selection_5_21
     (by unfold RepresentsOptions; decide),
   by decide⟩

/-! ## The clipboard bridge -/

theorem settle_fulfils (sel : SelectionState) (p : Platform) (ui : Ui)
    (hne : generateText sel ≠ "") (hp : p.clipboard = .fulfils) :
    ui.settle sel p =
      { now := ui.now, copyButtonText := "Copied!", timers := ui.timers ++ [ui.now + 2000] } := by
  simp [Ui.settle, copyToClipboard, hne, hp, onFulfilled, Ui.performAll, Ui.perform]

/-- C9, as the code has it. When a copy of non-empty text succeeds, the clipboard was
written once with the generated text, the label is "Copied!" at once, and it is
"Copy Text" 2000 ms later. It stays "Copied!" up to any time before those 2000 ms
at which no callback of an earlier copy has come due, so for the whole 2000 ms when
none is pending; a callback of an earlier copy is not cancelled and sets the label
back to "Copy Text" as soon as it is due. -/
theorem copied_label_timing (sel : SelectionState) (p : Platform) (ui : Ui)
    (hne : generateText sel ≠ "") (hp : p.clipboard = .fulfils) :
    (copyToClipboard sel p).atClick = [.writeText (generateText sel)] ∧
    (ui.settle sel p).copyButtonText = "Copied!" ∧
    (∀ d, d < 2000 → (∀ due ∈ ui.timers, ui.now + d < due) →
      ((ui.settle sel p).advance d).copyButtonText = "Copied!") ∧
    ((ui.settle sel p).advance 2000).copyButtonText = "Copy Text" ∧
    (∀ d, (∃ due ∈ ui.timers, due ≤ ui.now + d) →
      ((ui.settle sel p).advance d).copyButtonText = "Copy Text") := by
  rw [settle_fulfils sel p ui hne hp]
  refine ⟨by simp [copyToClipboard, hne, hp], rfl, ?_, ?_, ?_⟩
  · intro d hd hpend
    have hnone : (ui.timers ++ [ui.now + 2000]).any (fun due => due ≤ ui.now + d) = false := by
      rw [List.any_eq_false]
      intro due hdue
      rcases List.mem_append.1 hdue with h | h
      · have := hpend due h
        simp only [decide_eq_true_eq]; omega
      · have : due = ui.now + 2000 := by simpa using h
        simp only [decide_eq_true_eq]; omega
    simp only [Ui.advance, hnone]
    simp
  · have hany : (ui.timers ++ [ui.now + 2000]).any (fun due => due ≤ ui.now + 2000) = true := by
      rw [List.any_eq_true]
      exact ⟨ui.now + 2000, by simp, by simp⟩
    simp only [Ui.advance, hany]
    simp
  · intro d hex
    obtain ⟨due, hmem, hle⟩ := hex
    have hany : (ui.timers ++ [ui.now + 2000]).any (fun due => due ≤ ui.now + d) = true := by
      rw [List.any_eq_true]
      exact ⟨due, List.mem_append_left _ hmem, by simpa using hle⟩
    simp only [Ui.advance, hany]
    simp

/-- C9, witness: one copy of "five, twenty-one" from the idle button; 1999 ms after
the success the label is still "Copied!". -/
theorem copied_label_timing_witness :
    generateText selection_5_21 ≠ "" ∧
    ((Ui.idle.settle selection_5_21
        { clipboard := .fulfils, textAreaMounted := true, execCommand := .returns true }).advance
      1999).copyButtonText = "Copied!" :=
  ⟨by decide,
   (copied_label_timing selection_5_21
      { clipboard := .fulfils, textAreaMounted := true, execCommand := .returns true }
      Ui.idle (by decide) rfl).2.2.1 1999 (by decide) (by decide)⟩

/-- C9 as stated fails for a copy made while the label is "Copied!": a first copy
succeeds at time 0, a second one at time 1500, when the label is "Copied!"; 500 ms
after the second success, when the callback of the first is due, the label is
"Copy Text". -/
theorem second_copy_keeps_first_timer :
    ((Ui.idle.settle selection_5_21
        { clipboard := .fulfils, textAreaMounted := true, execCommand := .returns true }).advance
      1500).copyButtonText = "Copied!" ∧
    ((((Ui.idle.settle selection_5_21
        { clipboard := .fulfils, textAreaMounted := true, execCommand := .returns true }).advance
      1500).settle selection_5_21
        { clipboard := .fulfils, textAreaMounted := true, execCommand := .returns true }).advance
      500).copyButtonText = "Copy Text" := by
  decide

/-- C10, as the code has it. When the clipboard write of non-empty text is rejected,
the click itself wrote the generated text and threw nothing, and the `catch` callback
logs the error. With the text area mounted it then selects the text area and calls
`execCommand('copy')`: when that call returns, whatever it returns, the label is set to
"Copied!", the revert is scheduled 2000 ms on and the callback ends normally; when
that call throws, nothing after it runs, the button is untouched, and the exception
leaves the callback as a rejection that nothing handles. With no text area the
callback only logs, the button is untouched and no exception arises. -/
theorem fallback_behaviour (sel : SelectionState) (p : Platform) (ui : Ui)
    (hne : generateText sel ≠ "") (hp : p.clipboard = .rejects) :
    (copyToClipboard sel p).atClick = [.writeText (generateText sel)] ∧
    (copyToClipboard sel p).completion ≠ .throwsAtClick ∧
    (p.textAreaMounted = true → ∀ copied, p.execCommand = .returns copied →
      (copyToClipboard sel p).atSettle =
        [.consoleError, .selectTextArea, .execCommandCopy,
          .setCopyButtonText "Copied!", .setTimeoutRevert 2000] ∧
      ui.settle sel p =
        { now := ui.now, copyButtonText := "Copied!", timers := ui.timers ++ [ui.now + 2000] } ∧
      (copyToClipboard sel p).completion = .normal) ∧
    (p.textAreaMounted = true → p.execCommand = .throws →
      (copyToClipboard sel p).atSettle = [.consoleError, .selectTextArea, .execCommandCopy] ∧
      ui.settle sel p = ui ∧
      (copyToClipboard sel p).completion = .unhandledRejection) ∧
    (p.textAreaMounted = false →
      (copyToClipboard sel p).atSettle = [.consoleError] ∧
      ui.settle sel p = ui ∧
      (copyToClipboard sel p).completion = .normal) := by
  refine ⟨by simp [copyToClipboard, hne, hp], ?_, ?_, ?_, ?_⟩
  · cases hm : p.textAreaMounted <;> cases he : p.execCommand <;>
      simp [copyToClipboard, hne, hp, onRejected, hm, he]
  · intro hm copied he
    simp [Ui.settle, copyToClipboard, hne, hp, onRejected, hm, he, Ui.performAll, Ui.perform]
  · intro hm he
    simp [Ui.settle, copyToClipboard, hne, hp, onRejected, hm, he, Ui.performAll, Ui.perform]
  · intro hm
    simp [Ui.settle, copyToClipboard, hne, hp, onRejected, hm, Ui.performAll, Ui.perform]

/-- C10, witness: the write is rejected and the text area is mounted. With `execCommand`
returning `true` the fallback runs in full and the label becomes "Copied!"; with
`execCommand` throwing the idle button stays as it is and the rejection is unhandled. -/
theorem fallback_behaviour_witness :
    generateText selection_5_21 ≠ "" ∧
    ((copyToClipboard selection_5_21
        { clipboard := .rejects, textAreaMounted := true, execCommand := .returns true }
        ).atSettle =
        [.consoleError, .selectTextArea, .execCommandCopy,
          .setCopyButtonText "Copied!", .setTimeoutRevert 2000] ∧
      Ui.idle.settle selection_5_21
        { clipboard := .rejects, textAreaMounted := true, execCommand := .returns true } =
        { now := Ui.idle.now, copyButtonText := "Copied!",
          timers := Ui.idle.timers ++ [Ui.idle.now + 2000] } ∧
      (copyToClipboard selection_5_21
        { clipboard := .rejects, textAreaMounted := true, execCommand := .returns true }
        ).completion = .normal) ∧
    ((copyToClipboard selection_5_21
        { clipboard := .rejects, textAreaMounted := true, execCommand := .throws }
        ).atSettle = [.consoleError, .selectTextArea, .execCommandCopy] ∧
      Ui.idle.settle selection_5_21
        { clipboard := .rejects, textAreaMounted := true, execCommand := .throws } = Ui.idle ∧
      (copyToClipboard selection_5_21
        { clipboard := .rejects, textAreaMounted := true, execCommand := .throws }
        ).completion = .unhandledRejection) :=
  ⟨by decide,
   (fallback_behaviour selection_5_21
      { clipboard := .rejects, textAreaMounted := true, execCommand := .returns true }
      Ui.idle (by decide) rfl).2.2.1 rfl true rfl,
   (fallback_behaviour selection_5_21
      { clipboard := .rejects, textAreaMounted := true, execCommand := .throws }
      Ui.idle (by decide) rfl).2.2.2.1 rfl rfl⟩

/-- C10 as stated fails at both ways the fallback can fail. When `execCommand` returns
`false`, the write is rejected, the fallback copies nothing, and the label changes
from "Copy Text" to "Copied!" all the same. When `execCommand` throws, the label
stays "Copy Text" but the exception is not absorbed: the copy ends with a rejection
that nothing handles. -/
theorem failed_fallback_confirms :
    Ui.idle.copyButtonText = "Copy Text" ∧
    (copyToClipboard selection_5_21
      { clipboard := .rejects, textAreaMounted := true, execCommand := .returns false }
      ).atSettle =
      [.consoleError, .selectTextArea, .execCommandCopy,
        .setCopyButtonText "Copied!", .setTimeoutRevert 2000] ∧
    (Ui.idle.settle selection_5_21
      { clipboard := .rejects, textAreaMounted := true, execCommand := .returns false }
      ).copyButtonText = "Copied!" ∧
    (Ui.idle.settle selection_5_21
      { clipboard := .rejects, textAreaMounted := true, execCommand := .throws }
      ).copyButtonText = "Copy Text" ∧
    (copyToClipboard selection_5_21
      { clipboard := .rejects, textAreaMounted := true, execCommand := .throws }
      ).completion = .unhandledRejection ∧
    (copyToClipboard selection_5_21
      { clipboard := .rejects, textAreaMounted := true, execCommand := .throws }
      ).completion ≠ .normal := by
  decide

end Drop
